import Mathlib

/-!
# Verification of the MRover robotic-arm controller (`mrover_arm.cpp`)

This file gives a shallow embedding of the arm controller found in
`src/jetson/ra_kinematics/mrover_arm.cpp` and proves (or refutes) the
specification's claims about it.

Modelling conventions:
* C++ `double` angles are embedded as `ℚ` (exact arithmetic; the claims at
  issue are order/algebraic facts, not floating-point facts).
* The tuning constants live in `mrover_arm.hpp`, which is not part of the
  provided sources; they are carried as fields of an `ArmParams` record
  (modelled from the spec, which names them but fixes only
  MAX_NUM_PREV_ANGLES = 5 "up to 5 most recent readings").
* The kinematics solver, motion planner and spline (`arm_state.cpp`,
  `kinematics.cpp`, `motion_planner.cpp` are likewise not under the provided
  sources) are abstracted as an `Env` record of functions; the controller
  code under verification never inspects their internals, so every theorem
  below quantifies over them.
* LCM publishes and calls into the solver/planner are recorded as an
  explicit `Event` trace, newest last, in program order.
-/

/-- A 4×4 homogeneous transform, as published on `/fk_transform`. -/
abbrev Mat4 := Fin 4 → Fin 4 → ℚ

/-- Modelled from the spec (`arm_state.cpp` is not among the provided
sources): the `ArmState` geometry/configuration object. Each joint carries
angle limits, maximum angular speed, encoder offset and multiplier, a lock
flag, plus the current joint-angle vector and the cached FK transforms. -/
structure ArmState where
  jointAngles : Fin 6 → ℚ
  transforms : Fin 6 → Mat4
  jointLimits : Fin 6 → ℚ × ℚ
  jointMaxSpeed : Fin 6 → ℚ
  encoderOffset : Fin 6 → ℚ
  encoderMultiplier : Fin 6 → ℚ
  jointLocked : Fin 6 → Bool
deriving DecidableEq

/-- Modelled from the spec (`mrover_arm.hpp` is not among the provided
sources): the tuning constants named by the configuration section of the
spec.  The spec fixes only that an encoder window holds up to 5 readings. -/
structure ArmParams where
  maxNumPrevAngles : Nat
  maxFishyVals : Nat
  encoderErrorThreshold : ℚ
  dudEncoderValues : List ℚ
  dudEncoderEpsilon : ℚ
  acceptableBeyondLimit : ℚ
  dSplineT : ℚ
  splineWaitTime : ℚ
deriving DecidableEq

/-- Modelled from the spec: `ArmState::set_joint_angles` clamps each angle to
its joint limits only if the breach is within ACCEPTABLE_BEYOND_LIMIT,
otherwise stores it unchanged (the guard, not the model, flags it). -/
def set_joint_angles (p : ArmParams) (st : ArmState) (angles : Fin 6 → ℚ) : ArmState :=
  { st with jointAngles := fun i =>
      let lo := (st.jointLimits i).1
      let hi := (st.jointLimits i).2
      let a := angles i
      if a < lo ∧ |a - lo| < p.acceptableBeyondLimit then lo
      else if a > hi ∧ |a - hi| < p.acceptableBeyondLimit then hi
      else a }

/-- The mutable controller state of `MRoverArm` (its member variables). -/
structure Controller where
  state : ArmState
  prevAngles : Fin 6 → List ℚ
  faultyEncoders : Fin 6 → Bool
  encoderError : Bool
  encoderErrorMessage : String
  enableExecute : Bool
  simMode : Bool
  ikEnabled : Bool
  previewing : Bool
  armControlState : String
deriving DecidableEq

/-- Observable effects of the controller, in program order: LCM publishes and
calls into the solver / planner / spline. -/
inductive Event where
  | publishDebug (isError : Bool) (message : String)
  | publishTransforms (transforms : Fin 6 → Mat4)
  | publishConfig (channel : String) (config : Fin 6 → ℚ)
  | splineQuery (t : ℚ)
  | ikAttempt
  | planAttempt
deriving DecidableEq

/-- The external collaborators of `MRoverArm` whose sources are not under the
provided tree (`KinematicsSolver`, `MotionPlanner`): forward kinematics,
the safety check, IK (which mutates the hypothetical state it is given and
returns a candidate solution plus a success flag), RRT-Connect, and the
fitted spline `get_spline_pos`. -/
structure Env where
  fk : ArmState → ArmState
  isSafe : ArmState → Bool
  ik : ArmState → (Fin 6 → ℚ) → Bool → Bool → ((Fin 6 → ℚ) × Bool) × ArmState
  rrtConnect : ArmState → (Fin 6 → ℚ) → Bool × ArmState
  spline : ℚ → Fin 6 → ℚ

/-- The raw-to-logical intake mapping applied to incoming encoder readings in
hardware mode (`mrover_arm.cpp` lines 46–52): subtract the offset, then
multiply by the multiplier. -/
def rawToLogical (offset mult raw : ℚ) : ℚ := (raw - offset) * mult

/-- The logical-to-raw conversion applied to setpoints before publishing on
`/ik_ra_control` in hardware mode (`mrover_arm.cpp` lines 311–315): multiply
by the multiplier, then add the offset. -/
def logicalToRaw (offset mult theta : ℚ) : ℚ := theta * mult + offset

/-- Intake of a raw reading vector (`arm_position_callback` lines 46–52):
in hardware mode every channel goes through `rawToLogical`; in sim mode the
readings are already logical. -/
def intakeAngles (c : Controller) (msgAngles : Fin 6 → ℚ) : Fin 6 → ℚ :=
  if c.simMode then msgAngles
  else fun i =>
    rawToLogical (c.state.encoderOffset i) (c.state.encoderMultiplier i) (msgAngles i)

/-- `MRoverArm::check_dud_encoder` (lines 514–523): any reading within
DUD_ENCODER_EPSILON of a configured dud value is replaced, in list order, by
the model's current angle for that joint. -/
def check_dud_encoder (p : ArmParams) (st : ArmState) (angles : Fin 6 → ℚ) :
    Fin 6 → ℚ := fun i =>
  p.dudEncoderValues.foldl
    (fun a d => if |a - d| < p.dudEncoderEpsilon then st.jointAngles i else a)
    (angles i)

/-- Result of the limit check: possibly clamped angles, the error flag and the
error message. -/
structure LimitCheckResult where
  angles : Fin 6 → ℚ
  encoderError : Bool
  encoderErrorMessage : String
deriving DecidableEq

/-- `MRoverArm::check_joint_limits` (lines 525–539): a reading beyond a joint
limit by less than ACCEPTABLE_BEYOND_LIMIT is clamped to the limit; a reading
further out raises `encoder_error` and overwrites the error message.  (The
numeric text of the C++ message is produced by `std::to_string`; the embedded
message keeps the same shape with Lean's rational formatting.) -/
def check_joint_limits (p : ArmParams) (st : ArmState) (angles : Fin 6 → ℚ)
    (err0 : Bool) (msg0 : String) : LimitCheckResult :=
  (List.finRange 6).foldl
    (fun acc i =>
      let a := acc.angles i
      let lo := (st.jointLimits i).1
      let hi := (st.jointLimits i).2
      if a < lo ∧ |a - lo| < p.acceptableBeyondLimit then
        { acc with angles := Function.update acc.angles i lo }
      else if a > hi ∧ |a - hi| < p.acceptableBeyondLimit then
        { acc with angles := Function.update acc.angles i hi }
      else if a < lo ∨ a > hi then
        { acc with encoderError := true,
                   encoderErrorMessage :=
                     "Encoder Error: " ++ toString a ++ " beyond joint "
                       ++ toString i.val ++ " limits (joint A = 0, F = 5)" }
      else acc)
    ⟨angles, err0, msg0⟩

/-- The staleness-scaled comparison of `arm_position_callback` (lines 70 and
93): reading `alpha` disagrees with the window entry at depth `i` when
`|alpha − w[i]| > ENCODER_ERROR_THRESHOLD · (i+1)`. -/
def violatesAt (p : ArmParams) (alpha : ℚ) (i : Nat) (w : ℚ) : Bool :=
  |alpha - w| > p.encoderErrorThreshold * (i + 1)

/-- Result of the temporal-jump phase: per-joint fault flags, the error flag
and the accumulated message. -/
structure WindowCheckResult where
  faulty : Fin 6 → Bool
  encoderError : Bool
  encoderErrorMessage : String
deriving DecidableEq

/-- The partially-filled-window branch of `arm_position_callback`
(lines 61–82).  Per joint: scan the window from newest to oldest and on the
first violating comparison mark the joint faulty, raise the error and append
the joint index to the message (the C++ `break`); if the scan finishes, the
joint is cleared; if the window is empty the loop body never runs and the
flag keeps its previous value. -/
def windowPhaseBelowFull (p : ArmParams) (alpha : Fin 6 → ℚ)
    (prev : Fin 6 → List ℚ) (faulty0 : Fin 6 → Bool) (err0 : Bool)
    (msg0 : String) : WindowCheckResult :=
  (List.finRange 6).foldl
    (fun acc j =>
      if (prev j).isEmpty then acc
      else if (prev j).enum.any (fun iw => violatesAt p (alpha j) iw.1 iw.2) then
        { faulty := Function.update acc.faulty j true,
          encoderError := true,
          encoderErrorMessage := acc.encoderErrorMessage ++ ", " ++ toString j.val }
      else { acc with faulty := Function.update acc.faulty j false })
    ⟨faulty0, err0, msg0⟩

/-- The number of staleness-scaled comparisons the reading `alpha` fails
against the (full) window, `arm_position_callback` lines 87–96. -/
def fishyCount (p : ArmParams) (alpha : ℚ) (window : List ℚ) : Nat :=
  ((window.take p.maxNumPrevAngles).enum.countP
    (fun iw => violatesAt p alpha iw.1 iw.2))

/-- The full-window branch of `arm_position_callback` (lines 83–108): a joint
is marked faulty exactly when strictly more than MAX_FISHY_VALS of the
comparisons fail; faulty joints raise the error and are appended to the
message, healthy joints are cleared. -/
def windowPhaseFull (p : ArmParams) (alpha : Fin 6 → ℚ)
    (prev : Fin 6 → List ℚ) (faulty0 : Fin 6 → Bool) (err0 : Bool)
    (msg0 : String) : WindowCheckResult :=
  (List.finRange 6).foldl
    (fun acc j =>
      if fishyCount p (alpha j) (prev j) > p.maxFishyVals then
        { faulty := Function.update acc.faulty j true,
          encoderError := true,
          encoderErrorMessage := acc.encoderErrorMessage ++ ", " ++ toString j.val }
      else { acc with faulty := Function.update acc.faulty j false })
    ⟨faulty0, err0, msg0⟩

/-- Pushing one reading onto a window (`arm_position_callback` lines 111–116):
when the window is full the oldest entry (the back) is evicted, then the
reading is pushed at the front. -/
def pushPrevAngles (p : ArmParams) (window : List ℚ) (a : ℚ) : List ℚ :=
  a :: (if window.length ≥ p.maxNumPrevAngles then window.dropLast else window)

/-- The reading vector after faulty-encoder substitution
(`arm_position_callback` lines 117–119): a faulty joint's reading is replaced
by the model's current angle before it propagates downstream. -/
def substitutedAngles (st : ArmState) (faulty : Fin 6 → Bool)
    (alpha : Fin 6 → ℚ) : Fin 6 → ℚ := fun j =>
  if faulty j then st.jointAngles j else alpha j

/-- The sanitized reading vector: intake mapping, then dud substitution, then
the limit check (the value actually compared against the windows and pushed
onto them). -/
def sanitizedAngles (p : ArmParams) (c : Controller) (msgAngles : Fin 6 → ℚ) :
    Fin 6 → ℚ :=
  (check_joint_limits p c.state
    (check_dud_encoder p c.state (intakeAngles c msgAngles)) false
    "Encoder Error in encoder(s) (joint A = 0, F = 5): ").angles

/-- `MRoverArm::arm_position_callback` (lines 35–137): intake mapping, reset
of the error flag, dud and limit checks, the temporal-jump check (partial or
full window), the window push (of the pre-substitution value) interleaved
with faulty substitution, and — unless previewing — the model update, FK and
transform publish. -/
def arm_position_callback (p : ArmParams) (env : Env) (c : Controller)
    (msgAngles : Fin 6 → ℚ) : Controller × List Event :=
  let angles1 := check_dud_encoder p c.state (intakeAngles c msgAngles)
  let lim := check_joint_limits p c.state angles1 false
    "Encoder Error in encoder(s) (joint A = 0, F = 5): "
  let wres :=
    if (c.prevAngles 0).length < p.maxNumPrevAngles then
      windowPhaseBelowFull p lim.angles c.prevAngles c.faultyEncoders
        lim.encoderError lim.encoderErrorMessage
    else
      windowPhaseFull p lim.angles c.prevAngles c.faultyEncoders
        lim.encoderError lim.encoderErrorMessage
  let newWindows := fun j => pushPrevAngles p (c.prevAngles j) (lim.angles j)
  let down := substitutedAngles c.state wres.faulty lim.angles
  let c1 : Controller :=
    { c with prevAngles := newWindows, faultyEncoders := wres.faulty,
             encoderError := wres.encoderError,
             encoderErrorMessage := wres.encoderErrorMessage }
  if c.previewing then (c1, [])
  else
    let st1 := env.fk (set_joint_angles p c.state down)
    ({ c1 with state := st1 }, [Event.publishTransforms st1.transforms])

/-- `MRoverArm::motion_execute_callback` (lines 218–235): the `preview=true`
branch is entirely commented out in the source and does nothing; the
`preview=false` branch enables execution. -/
def motion_execute_callback (c : Controller) (preview : Bool) :
    Controller × List Event :=
  if preview then (c, [])
  else ({ c with enableExecute := true }, [])

/-- The joints participating in executor pacing: A through E, joint F
excluded (`execute_spline` line 272, `for (int i = 0; i < 5; ...)`). -/
def pacedJoints : List (Fin 6) := [0, 1, 2, 3, 4]

/-- Per-joint travel time in ms for the lookahead displacement
(`execute_spline` lines 273–276): distance over three quarters of the
joint's max speed, converted to ms. -/
def jointTravelTime (st : ArmState) (init finalA : Fin 6 → ℚ) (i : Fin 6) : ℚ :=
  |finalA i - init i| / (st.jointMaxSpeed i * 3 / 4 / 1000)

/-- The `max_time` fold of `execute_spline` (lines 269–279): starting from −1,
take the running maximum of the paced joints' travel times. -/
def maxTravelTime (st : ArmState) (init finalA : Fin 6 → ℚ) : ℚ :=
  pacedJoints.foldl
    (fun mt i =>
      if mt < jointTravelTime st init finalA i then jointTravelTime st init finalA i
      else mt)
    (-1)

/-- The advanced spline parameter of one executor tick (`execute_spline`
lines 282–283): `spline_t + D_SPLINE_T / (max_time / SPLINE_WAIT_TIME)`. -/
def nextSplineT (p : ArmParams) (st : ArmState) (spline : ℚ → Fin 6 → ℚ)
    (t : ℚ) : ℚ :=
  t + p.dSplineT / (maxTravelTime st st.jointAngles (spline (t + p.dSplineT))
    / p.splineWaitTime)

/-- Clamping a target configuration to the joint limits (`execute_spline`
lines 298–305). -/
def clampToLimits (st : ArmState) (target : Fin 6 → ℚ) : Fin 6 → ℚ := fun i =>
  if target i < (st.jointLimits i).1 then (st.jointLimits i).1
  else if target i > (st.jointLimits i).2 then (st.jointLimits i).2
  else target i

/-- The setpoint commanded by one (non-terminating) executor tick: the spline
sampled at the advanced parameter, clamped to the joint limits. -/
def tickSetpoint (p : ArmParams) (st : ArmState) (spline : ℚ → Fin 6 → ℚ)
    (t : ℚ) : Fin 6 → ℚ :=
  clampToLimits st (spline (nextSplineT p st spline t))

/-- Result of one iteration of the `execute_spline` loop: the controller, the
new value of the local `spline_t`, and the events of that iteration. -/
structure TickResult where
  ctrl : Controller
  splineT : ℚ
  events : List Event
deriving DecidableEq

/-- One iteration of the `MRoverArm::execute_spline` loop (lines 241–338,
sleeps elided).  With execution disabled the iteration only resets
`spline_t`.  With execution enabled and an encoder error pending, execution
is aborted, the error is published, and in sim mode the model's angles are
re-published MAX_NUM_PREV_ANGLES times on `/arm_position` (lines 244–261).
Otherwise the spline is sampled ahead at `t + D_SPLINE_T`, the parameter is
advanced by the pacing rule, the loop finishes if it passed 1, and else the
clamped setpoint at the new parameter is issued: published raw on
`/ik_ra_control` in hardware mode, echoed into the model in sim mode. -/
def execute_spline_tick (p : ArmParams) (env : Env) (c : Controller)
    (splineT : ℚ) : TickResult :=
  if c.enableExecute then
    if c.encoderError then
      { ctrl := { c with enableExecute := false, ikEnabled := false },
        splineT := 0,
        events := Event.publishDebug true c.encoderErrorMessage ::
          (if c.simMode then
            List.replicate p.maxNumPrevAngles
              (Event.publishConfig "/arm_position" c.state.jointAngles)
          else []) }
    else
      let t1 := nextSplineT p c.state env.spline splineT
      if t1 > 1 then
        { ctrl := { c with enableExecute := false, ikEnabled := false },
          splineT := 0,
          events := [Event.splineQuery (splineT + p.dSplineT)] }
      else
        let target := tickSetpoint p c.state env.spline splineT
        if c.simMode then
          { ctrl := { c with state := set_joint_angles p c.state target },
            splineT := t1,
            events := [Event.splineQuery (splineT + p.dSplineT),
                       Event.splineQuery t1] }
        else
          { ctrl := c, splineT := t1,
            events := [Event.splineQuery (splineT + p.dSplineT),
                       Event.splineQuery t1,
                       Event.publishConfig "/ik_ra_control"
                         (fun i => logicalToRaw (c.state.encoderOffset i)
                           (c.state.encoderMultiplier i) (target i))] }
  else
    { ctrl := c, splineT := 0, events := [] }

/-- The body of the `MRoverArm::preview` while-loop (lines 368–382), with an
explicit fuel bound standing for the loop's termination (the parameter grows
by 1/50 per pass, so 52 units of fuel more than suffice): sample the spline,
write the hypothetical state, run FK on it, publish its transforms. -/
def previewLoop (p : ArmParams) (env : Env) (hypo : ArmState) (t : ℚ) :
    Nat → ArmState × List Event
  | 0 => (hypo, [])
  | fuel + 1 =>
    if t ≤ 1 then
      let hypo1 := env.fk (set_joint_angles p hypo (env.spline t))
      let rest := previewLoop p env hypo1 (t + 1 / 50) fuel
      (rest.1, Event.publishTransforms hypo1.transforms :: rest.2)
    else (hypo, [])

/-- `MRoverArm::preview` (lines 360–393): raises `ik_enabled` and
`previewing`, iterates the preview loop over the hypothetical state from
`t = 0`, publishes "Preview Done", and drops `previewing`. -/
def preview (p : ArmParams) (env : Env) (c : Controller) (hypo : ArmState) :
    Controller × ArmState × List Event :=
  let c1 := { c with ikEnabled := true, previewing := true }
  let res := previewLoop p env hypo 0 52
  ({ c1 with previewing := false }, res.1,
    res.2 ++ [Event.publishDebug false "Preview Done"])

/-- `MRoverArm::plan_path` (lines 446–460): run RRT-Connect on the
hypothetical state; preview on success, publish "Unable to plan path!" on
failure. -/
def plan_path (p : ArmParams) (env : Env) (c : Controller) (hypo : ArmState)
    (goal : Fin 6 → ℚ) : Controller × ArmState × List Event :=
  let r := env.rrtConnect hypo goal
  if r.1 then
    let pr := preview p env c r.2
    (pr.1, pr.2.1, Event.planAttempt :: pr.2.2)
  else
    (c, r.2, [Event.planAttempt, Event.publishDebug false "Unable to plan path!"])

/-- The random-restart retry loop of `target_orientation_callback`
(lines 185–193): up to 25 further IK attempts with random starts, stopping at
the first success. -/
def ikRetryLoop (env : Env) (point : Fin 6 → ℚ) (useOrient : Bool) :
    Nat → ArmState → (Fin 6 → ℚ) × Bool →
    ((Fin 6 → ℚ) × Bool) × ArmState × List Event
  | 0, hypo, sol => (sol, hypo, [])
  | n + 1, hypo, sol =>
    if sol.2 then (sol, hypo, [])
    else
      let r := env.ik hypo point true useOrient
      let rest := ikRetryLoop env point useOrient n r.2 r.1
      (rest.1, rest.2.1, Event.ikAttempt :: rest.2.2)

/-- The `target_orientation` message payload. -/
structure TargetMsg where
  x : ℚ
  y : ℚ
  z : ℚ
  alpha : ℚ
  beta : ℚ
  gamma : ℚ
  useOrientation : Bool
deriving DecidableEq

/-- `MRoverArm::target_orientation_callback` (lines 139–216): reject the
request with a single "Unsafe Starting Position" popup when the current
configuration fails `is_safe`; otherwise disable execution, attempt IK from
the current position and then with up to 25 random restarts, report "No IK
solution" on failure, and plan (and preview) the found goal on success. -/
def target_orientation_callback (p : ArmParams) (env : Env) (c : Controller)
    (msg : TargetMsg) : Controller × List Event :=
  if !(env.isSafe c.state) then
    (c, [Event.publishDebug false "Unsafe Starting Position"])
  else
    let c1 := { c with enableExecute := false }
    let point : Fin 6 → ℚ := fun i =>
      [msg.x, msg.y, msg.z, msg.alpha, msg.beta, msg.gamma].getD i.val 0
    let first := env.ik c1.state point false msg.useOrientation
    let retry := ikRetryLoop env point msg.useOrientation 25 first.2 first.1
    let evs := Event.ikAttempt :: retry.2.2
    if !retry.1.2 then
      (c1, evs ++ [Event.publishDebug false "No IK solution"])
    else
      let pl := plan_path p env c1 retry.2.1 retry.1.1
      (pl.1, evs ++ pl.2.2)

/-! ## Concrete fixtures used by witnesses and counterexamples

The tuning constants are not fixed by the provided sources; the fixture
values below follow the spec: a window of 5 readings, a dud list of `{0.0}`,
and small strictly positive thresholds. -/

/-- Fixture parameters: window 5, MAX_FISHY_VALS 2, threshold 1 rad, duds
`[0]`, dud epsilon 1/100, limit tolerance 1/10, D_SPLINE_T 1/2,
SPLINE_WAIT_TIME 1 ms. -/
def testParams : ArmParams :=
  { maxNumPrevAngles := 5, maxFishyVals := 2, encoderErrorThreshold := 1,
    dudEncoderValues := [0], dudEncoderEpsilon := 1 / 100,
    acceptableBeyondLimit := 1 / 10, dSplineT := 1 / 2, splineWaitTime := 1 }

/-- The zero transform. -/
def zeroMat : Mat4 := fun _ _ => 0

/-- Fixture arm model: all angles zero, limits ±10 rad, max speed 4 rad/s,
identity encoder calibration. -/
def testState : ArmState :=
  { jointAngles := fun _ => 0, transforms := fun _ => zeroMat,
    jointLimits := fun _ => (-10, 10), jointMaxSpeed := fun _ => 4,
    encoderOffset := fun _ => 0, encoderMultiplier := fun _ => 1,
    jointLocked := fun _ => false }

/-- Fixture environment: identity FK, everything safe, failing IK and
planner, constant-zero spline. -/
def idEnv : Env :=
  { fk := id, isSafe := fun _ => true,
    ik := fun s _ _ _ => ((fun _ => 0, false), s),
    rrtConnect := fun s _ => (false, s), spline := fun _ _ => 0 }

/-- Fixture environment whose safety check always fails. -/
def unsafeEnv : Env := { idEnv with isSafe := fun _ => false }

/-- Fixture controller: model at rest, all six windows full of healthy zero
readings, no faults, sim mode, idle. -/
def fullZeroController : Controller :=
  { state := testState, prevAngles := fun _ => [0, 0, 0, 0, 0],
    faultyEncoders := fun _ => false, encoderError := false,
    encoderErrorMessage := "", enableExecute := false, simMode := true,
    ikEnabled := false, previewing := false, armControlState := "idle" }

/-- Fixture controller in the Executing state. -/
def executingController : Controller :=
  { fullZeroController with enableExecute := true }

/-- Fixture controller executing with a pending encoder error. -/
def errorController : Controller :=
  { executingController with
    encoderError := true
    encoderErrorMessage := "Encoder Error in encoder(s) (joint A = 0, F = 5): , 0" }

/-- Fixture controller in the Previewing state. -/
def previewingController : Controller :=
  { fullZeroController with previewing := true }

/-- A reading vector whose joint-A entry jumps to 100 rad (beyond the +10
limit) while the remaining joints read a healthy 1/2 rad. -/
def wildReading : Fin 6 → ℚ := fun j => if j = 0 then 100 else 1 / 2

/-- A reading vector whose joint-A entry jumps to 8 rad — inside the ±10
limits, but violating all five staleness-scaled comparisons against a window
of zeros — while the remaining joints read a healthy 1/2 rad. -/
def anomalousReading : Fin 6 → ℚ := fun j => if j = 0 then 8 else 1 / 2

/-- A healthy reading vector of 1/2 rad on every joint. -/
def healthyReading : Fin 6 → ℚ := fun _ => 1 / 2

/-- A cubic spline (for joint A only) that traverses a tall bump early in the
lookahead window while moving little overall: `s(u) = 100·u·(1−2u)² + 3u`.
It is smooth, starts at the fixture model's configuration, and stays inside
the ±10 rad limits on the visited samples. -/
def bumpSpline : ℚ → Fin 6 → ℚ := fun u i =>
  if i = 0 then 100 * u * (1 - 2 * u) ^ 2 + 3 * u else 0

/-- Environment carrying the bump spline. -/
def bumpEnv : Env := { idEnv with spline := bumpSpline }

/-- Per-joint slope of the affine fixture spline: joint A moves at unit
slope, all other joints stand still. -/
def affSlope : Fin 6 → ℚ := fun i => if i = 0 then 1 else 0

/-- Per-joint intercept of the affine fixture spline. -/
def affIntercept : Fin 6 → ℚ := fun _ => 0

/-- An affine (straight-line) fixture spline. -/
def affSpline : ℚ → Fin 6 → ℚ := fun u i => affSlope i * u + affIntercept i

/-- Environment carrying the affine fixture spline. -/
def affEnv : Env := { idEnv with spline := affSpline }

/-- A zero target-pose message. -/
def zeroTarget : TargetMsg :=
  { x := 0, y := 0, z := 0, alpha := 0, beta := 0, gamma := 0,
    useOrientation := false }

/-! ## Helper lemmas -/

/-- The `max_time` fold never drops below its accumulator. -/
lemma maxFold_le_acc (f : Fin 6 → ℚ) :
    ∀ (l : List (Fin 6)) (a : ℚ),
      a ≤ l.foldl (fun mt i => if mt < f i then f i else mt) a := by
  intro l
  induction l with
  | nil => intro a; simp
  | cons i l ih =>
    intro a
    have h1 : a ≤ if a < f i then f i else a := by
      split
      · exact le_of_lt (by assumption)
      · exact le_rfl
    exact le_trans h1 (by simpa using ih (if a < f i then f i else a))

/-- The `max_time` fold dominates every listed joint's travel time. -/
lemma maxFold_mem_le (f : Fin 6 → ℚ) :
    ∀ (l : List (Fin 6)) (a : ℚ) (x : Fin 6), x ∈ l →
      f x ≤ l.foldl (fun mt i => if mt < f i then f i else mt) a := by
  intro l
  induction l with
  | nil => intro a x hx; cases hx
  | cons i l ih =>
    intro a x hx
    rcases List.mem_cons.mp hx with hx | hx
    · subst hx
      have h1 : f x ≤ if a < f x then f x else a := by
        split
        · exact le_rfl
        · exact le_of_not_lt (by assumption)
      exact le_trans h1 (by simpa using maxFold_le_acc f l _)
    · simpa using ih _ x hx

/-- Clamping to a joint's limit interval moves a point no further from any
point already inside the interval. -/
lemma clampToLimits_contract (st : ArmState) (target : Fin 6 → ℚ) (i : Fin 6)
    (x : ℚ) (hlo : (st.jointLimits i).1 ≤ x) (hhi : x ≤ (st.jointLimits i).2) :
    |clampToLimits st target i - x| ≤ |target i - x| := by
  unfold clampToLimits
  have h2 := le_abs_self (target i - x)
  have h3 := neg_abs_le (target i - x)
  split
  · rw [abs_le]; constructor <;> [linarith; linarith]
  · split
    · rw [abs_le]; constructor <;> [linarith; linarith]
    · exact le_rfl

/-- In any fold over the six joints whose step writes a fault bit `g i` that
does not depend on the accumulator, the final fault flag of a listed joint is
`g`, and of an unlisted joint the initial flag. -/
lemma windowFold_faulty (g : Fin 6 → Bool)
    (s : WindowCheckResult → Fin 6 → WindowCheckResult)
    (hstep : ∀ acc i, (s acc i).faulty = Function.update acc.faulty i (g i)) :
    ∀ (l : List (Fin 6)) (acc : WindowCheckResult) (j : Fin 6),
      (l.foldl s acc).faulty j = if j ∈ l then g j else acc.faulty j := by
  intro l
  induction l with
  | nil => intro acc j; simp
  | cons i l ih =>
    intro acc j
    rw [List.foldl_cons, ih]
    by_cases hj : j ∈ l
    · simp [hj]
    · by_cases hji : j = i
      · subst hji
        simp [hj, hstep, Function.update_same]
      · simp [hj, hji, hstep, Function.update_noteq hji]

/-- The full-window temporal-jump phase marks joint `j` faulty exactly when
strictly more than MAX_FISHY_VALS of its staleness-scaled comparisons fail. -/
lemma windowPhaseFull_faulty (p : ArmParams) (alpha : Fin 6 → ℚ)
    (prev : Fin 6 → List ℚ) (faulty0 : Fin 6 → Bool) (err0 : Bool)
    (msg0 : String) (j : Fin 6) :
    (windowPhaseFull p alpha prev faulty0 err0 msg0).faulty j =
      decide (fishyCount p (alpha j) (prev j) > p.maxFishyVals) := by
  unfold windowPhaseFull
  rw [windowFold_faulty (fun j => decide (fishyCount p (alpha j) (prev j) > p.maxFishyVals))]
  · simp [List.mem_finRange]
  · intro acc i
    by_cases h : fishyCount p (alpha i) (prev i) > p.maxFishyVals
    · simp [h]
    · simp [h]

/-- The result of `arm_position_callback` carries the fault flags of the
window phase it ran, whatever the previewing flag. -/
lemma arm_position_callback_faulty (p : ArmParams) (env : Env)
    (c : Controller) (msgAngles : Fin 6 → ℚ)
    (hfull : ¬ (c.prevAngles 0).length < p.maxNumPrevAngles) :
    (arm_position_callback p env c msgAngles).1.faultyEncoders =
      (windowPhaseFull p (sanitizedAngles p c msgAngles) c.prevAngles
        c.faultyEncoders
        (check_joint_limits p c.state
          (check_dud_encoder p c.state (intakeAngles c msgAngles)) false
          "Encoder Error in encoder(s) (joint A = 0, F = 5): ").encoderError
        (check_joint_limits p c.state
          (check_dud_encoder p c.state (intakeAngles c msgAngles)) false
          "Encoder Error in encoder(s) (joint A = 0, F = 5): ").encoderErrorMessage).faulty := by
  simp only [arm_position_callback, sanitizedAngles]
  rw [if_neg hfull]
  split <;> rfl

/-! ## Claim C2 -/

/-- C2 counterexample: with execution enabled, a `motion_execute` message
with `preview = true` does NOT cancel execution — `enable_execute` is still
true afterwards (the cancelling branch of `motion_execute_callback` is
commented out in the source), contradicting the claimed
Executing → Idle transition. -/
theorem spec_c2_counterexample :
    executingController.enableExecute = true ∧
      (motion_execute_callback executingController true).1.enableExecute = true :=
  ⟨rfl, rfl⟩

/-- C2 (amended): receiving `motion_execute` with `preview = true` leaves the
controller entirely unchanged and publishes nothing (no cancellation
happens); only `preview = false` changes state, setting
`enable_execute := true`. -/
theorem spec_c2_theorem (c : Controller) :
    motion_execute_callback c true = (c, []) ∧
      motion_execute_callback c false = ({ c with enableExecute := true }, []) :=
  ⟨rfl, rfl⟩

/-! ## Claim C3 -/

/-- C3: a target-pose message arriving while the current configuration fails
`is_safe` is rejected wholesale: the callback publishes exactly one
`/debug_message` "Unsafe Starting Position" (so no IK attempt and no planning
attempt appears in the trace) and returns the controller unchanged. -/
theorem spec_c3_theorem (p : ArmParams) (env : Env) (c : Controller)
    (msg : TargetMsg) (h : env.isSafe c.state = false) :
    target_orientation_callback p env c msg =
      (c, [Event.publishDebug false "Unsafe Starting Position"]) := by
  simp [target_orientation_callback, h]

/-- C3 witness: the rejection at a concrete unsafe configuration. -/
theorem spec_c3_witness :
    unsafeEnv.isSafe fullZeroController.state = false ∧
      target_orientation_callback testParams unsafeEnv fullZeroController
          zeroTarget =
        (fullZeroController,
          [Event.publishDebug false "Unsafe Starting Position"]) :=
  ⟨rfl, spec_c3_theorem testParams unsafeEnv fullZeroController zeroTarget rfl⟩

/-! ## Claim C7 -/

/-- C7 counterexample: with encoder multiplier 2 (the spec allows "±1 or
scale") and offset 0, converting the logical angle 1 to raw units for
emission and applying the intake mapping to the result yields 4, not 1 —
the emission path multiplies by the multiplier instead of dividing, so it is
not the inverse of the intake mapping. -/
theorem spec_c7_counterexample :
    rawToLogical 0 2 (logicalToRaw 0 2 1) ≠ 1 := by
  norm_num [rawToLogical, logicalToRaw]

/-- C7 (amended): the round-trip identity
`rawToLogical o m (logicalToRaw o m θ) = θ` holds exactly for multipliers
with `m · m = 1` (i.e. the ±1 multipliers); for a general scale the two maps
are not mutually inverse. -/
theorem spec_c7_theorem (offset mult theta : ℚ) (h : mult * mult = 1) :
    rawToLogical offset mult (logicalToRaw offset mult theta) = theta := by
  unfold rawToLogical logicalToRaw
  have h1 : theta * mult + offset - offset = theta * mult := by ring
  rw [h1, mul_assoc, h, mul_one]

/-- C7 witness: the round-trip at multiplier −1, offset 5, angle 3. -/
theorem spec_c7_witness :
    (-1 : ℚ) * -1 = 1 ∧ rawToLogical 5 (-1) (logicalToRaw 5 (-1) 3) = 3 :=
  ⟨by norm_num, spec_c7_theorem 5 (-1) 3 (by norm_num)⟩

/-! ## Claim C8 -/

/-- C8: preview never mutates the live ArmModel.  The preview loop operates
only on the hypothetical copy, so the controller's owned model (angles and
transforms alike) is identical before and after a preview run; and an
encoder message processed while `previewing` leaves the model untouched as
well (the model update, FK and transform publication are skipped). -/
theorem spec_c8_theorem (p : ArmParams) (env : Env) (c : Controller)
    (hypo : ArmState) (c2 : Controller) (msgAngles : Fin 6 → ℚ)
    (hprev : c2.previewing = true) :
    (preview p env c hypo).1.state = c.state ∧
      ((arm_position_callback p env c2 msgAngles).1.state = c2.state ∧
        (arm_position_callback p env c2 msgAngles).2 = []) := by
  refine ⟨rfl, ?_⟩
  simp only [arm_position_callback, hprev]
  exact ⟨rfl, rfl⟩

/-- C8 witness: a concrete preview run and a concrete encoder message during
previewing, both leaving the model as it was. -/
theorem spec_c8_witness :
    previewingController.previewing = true ∧
      ((preview testParams idEnv fullZeroController testState).1.state =
          fullZeroController.state ∧
        ((arm_position_callback testParams idEnv previewingController
              healthyReading).1.state = previewingController.state ∧
          (arm_position_callback testParams idEnv previewingController
              healthyReading).2 = [])) :=
  ⟨rfl, spec_c8_theorem testParams idEnv fullZeroController testState
    previewingController healthyReading rfl⟩

/-! ## Claim C10 -/

/-- C10: when the executor observes `encoder_error` while `enable_execute`
is true, the tick disables execution, resets the spline parameter to 0,
clears `ik_enabled`, publishes the error message on `/debug_message`, and in
simulation mode additionally re-publishes the model's current angles
MAX_NUM_PREV_ANGLES times on `/arm_position` (nothing more in hardware
mode). -/
theorem spec_c10_theorem (p : ArmParams) (env : Env) (c : Controller) (t : ℚ)
    (hex : c.enableExecute = true) (herr : c.encoderError = true) :
    (execute_spline_tick p env c t).ctrl.enableExecute = false ∧
      (execute_spline_tick p env c t).splineT = 0 ∧
      (execute_spline_tick p env c t).ctrl.ikEnabled = false ∧
      (execute_spline_tick p env c t).events =
        Event.publishDebug true c.encoderErrorMessage ::
          (if c.simMode then
            List.replicate p.maxNumPrevAngles
              (Event.publishConfig "/arm_position" c.state.jointAngles)
          else []) := by
  simp [execute_spline_tick, hex, herr]

/-- C10 witness: the abort at a concrete executing-with-error state in sim
mode, with its five published events. -/
theorem spec_c10_witness :
    errorController.enableExecute = true ∧ errorController.encoderError = true ∧
      ((execute_spline_tick testParams idEnv errorController (1/4)).ctrl.enableExecute
          = false ∧
        (execute_spline_tick testParams idEnv errorController (1/4)).splineT = 0 ∧
        (execute_spline_tick testParams idEnv errorController (1/4)).ctrl.ikEnabled
          = false ∧
        (execute_spline_tick testParams idEnv errorController (1/4)).events =
          Event.publishDebug true errorController.encoderErrorMessage ::
            (if errorController.simMode then
              List.replicate testParams.maxNumPrevAngles
                (Event.publishConfig "/arm_position"
                  errorController.state.jointAngles)
            else [])) :=
  ⟨rfl, rfl, spec_c10_theorem testParams idEnv errorController (1/4) rfl rfl⟩

/-! ## Claim C4 -/

/-- C4 counterexample: with a full window of five healthy zero readings and
no error pending, a SINGLE anomalous incoming reading (8 rad on joint A,
within the ±10 limits) violates all five staleness-scaled comparisons — more
than MAX_FISHY_VALS of them — and therefore by itself marks the joint faulty
and raises `encoder_error`, contradicting "a single anomalous incoming
reading never by itself raises PersistentEncoder". -/
theorem spec_c4_counterexample :
    fullZeroController.encoderError = false ∧
      (fullZeroController.prevAngles 0).length = testParams.maxNumPrevAngles ∧
      (arm_position_callback testParams idEnv fullZeroController
          anomalousReading).1.faultyEncoders 0 = true ∧
      (arm_position_callback testParams idEnv fullZeroController
          anomalousReading).1.encoderError = true := by
  refine ⟨rfl, rfl, ?_, ?_⟩ <;>
    norm_num [arm_position_callback, check_joint_limits, check_dud_encoder,
      intakeAngles, windowPhaseFull, fishyCount, violatesAt, testParams,
      fullZeroController, testState, anomalousReading, idEnv, List.finRange,
      List.range, List.range.loop, Function.update_apply, List.enum,
      List.countP, List.countP.go, abs_lt, lt_abs, Fin.ext_iff]

/-- C4 (amended): once the window is full, the joint is marked faulty exactly
when strictly more than MAX_FISHY_VALS of the up-to-5 staleness-scaled
comparisons `|αᵢ − w[k]| > ENCODER_ERROR_THRESHOLD·(k+1)` are violated; in
particular a reading violating at most one comparison (with
MAX_FISHY_VALS ≥ 1) never marks the joint faulty — but a single anomalous
incoming reading CAN alone raise PersistentEncoder, namely when it violates
more than MAX_FISHY_VALS comparisons at once (see the counterexample). -/
theorem spec_c4_theorem (p : ArmParams) (env : Env) (c : Controller)
    (msgAngles : Fin 6 → ℚ) (j : Fin 6)
    (hfull : ¬ (c.prevAngles 0).length < p.maxNumPrevAngles) :
    ((arm_position_callback p env c msgAngles).1.faultyEncoders j = true ↔
        p.maxFishyVals <
          fishyCount p (sanitizedAngles p c msgAngles j) (c.prevAngles j)) ∧
      (1 ≤ p.maxFishyVals →
        fishyCount p (sanitizedAngles p c msgAngles j) (c.prevAngles j) ≤ 1 →
        (arm_position_callback p env c msgAngles).1.faultyEncoders j = false) := by
  have h := arm_position_callback_faulty p env c msgAngles hfull
  have h2 : (arm_position_callback p env c msgAngles).1.faultyEncoders j =
      decide (fishyCount p (sanitizedAngles p c msgAngles j) (c.prevAngles j) >
        p.maxFishyVals) := by
    rw [congrFun h j, windowPhaseFull_faulty]
  constructor
  · rw [h2]; simp
  · intro hm hf
    rw [h2]
    simp only [decide_eq_false_iff_not, not_lt]
    omega

/-- C4 witness: a healthy reading against a full window fails no comparison
and leaves the joint unmarked. -/
theorem spec_c4_witness :
    ¬ ((fullZeroController.prevAngles 0).length < testParams.maxNumPrevAngles) ∧
      1 ≤ testParams.maxFishyVals ∧
      fishyCount testParams
          (sanitizedAngles testParams fullZeroController healthyReading 0)
          (fullZeroController.prevAngles 0) ≤ 1 ∧
      (arm_position_callback testParams idEnv fullZeroController
          healthyReading).1.faultyEncoders 0 = false := by
  have hfull :
      ¬ ((fullZeroController.prevAngles 0).length < testParams.maxNumPrevAngles) := by
    norm_num [fullZeroController, testParams]
  have hm : 1 ≤ testParams.maxFishyVals := by norm_num [testParams]
  have hf : fishyCount testParams
      (sanitizedAngles testParams fullZeroController healthyReading 0)
      (fullZeroController.prevAngles 0) ≤ 1 := by
    norm_num [fishyCount, sanitizedAngles, check_joint_limits,
      check_dud_encoder, intakeAngles, violatesAt, testParams,
      fullZeroController, testState, healthyReading, List.finRange, List.range,
      List.range.loop, Function.update_apply, List.enum, List.countP,
      List.countP.go, abs_lt, lt_abs, Fin.ext_iff]
  exact ⟨hfull, hm, hf,
    (spec_c4_theorem testParams idEnv fullZeroController healthyReading 0
      hfull).2 hm hf⟩

/-! ## Claim C5 -/

/-- C5 counterexample: on the concrete faulty reading (joint A jumps to 100),
the value pushed onto joint A's window is the raw reading 100, not the
substituted model angle 0 — the source pushes `angles[joint]` BEFORE the
faulty substitution — contradicting "the value then pushed onto that joint's
window is this substituted value, not the raw faulty reading". -/
theorem spec_c5_counterexample :
    (arm_position_callback testParams idEnv fullZeroController
        wildReading).1.faultyEncoders 0 = true ∧
      fullZeroController.state.jointAngles 0 = 0 ∧
      ((arm_position_callback testParams idEnv fullZeroController
          wildReading).1.prevAngles 0).head? = some 100 ∧
      some (100 : ℚ) ≠ some (0 : ℚ) := by
  refine ⟨?_, rfl, ?_, by norm_num⟩ <;>
    norm_num [arm_position_callback, check_joint_limits, check_dud_encoder,
      intakeAngles, windowPhaseFull, fishyCount, violatesAt, testParams,
      fullZeroController, testState, wildReading, idEnv, pushPrevAngles,
      List.finRange, List.range, List.range.loop, Function.update_apply,
      List.enum, List.countP, List.countP.go, abs_lt, lt_abs, Fin.ext_iff]

/-- C5 (amended): for each joint marked faulty the reading is replaced by the
model's current angle before propagating downstream (the vector handed to
`set_joint_angles` and FK is the substituted one), but the value pushed onto
the joint's window is the pre-substitution sanitized reading — the raw
(dud/limit-adjusted) value, not the substituted one. -/
theorem spec_c5_theorem (p : ArmParams) (env : Env) (c : Controller)
    (msgAngles : Fin 6 → ℚ) (hprev : c.previewing = false) :
    (∀ j, ((arm_position_callback p env c msgAngles).1.prevAngles j).head? =
        some (sanitizedAngles p c msgAngles j)) ∧
      (arm_position_callback p env c msgAngles).1.state =
        env.fk (set_joint_angles p c.state
          (substitutedAngles c.state
            ((arm_position_callback p env c msgAngles).1.faultyEncoders)
            (sanitizedAngles p c msgAngles))) := by
  constructor
  · intro j
    simp [arm_position_callback, sanitizedAngles, hprev, pushPrevAngles]
  · simp [arm_position_callback, sanitizedAngles, hprev]

/-- C5 witness: the window front equals the sanitized (pre-substitution)
reading at a concrete input. -/
theorem spec_c5_witness :
    fullZeroController.previewing = false ∧
      ((arm_position_callback testParams idEnv fullZeroController
          wildReading).1.prevAngles 0).head? =
        some (sanitizedAngles testParams fullZeroController wildReading 0) :=
  ⟨rfl, (spec_c5_theorem testParams idEnv fullZeroController wildReading rfl).1 0⟩

/-! ## Claim C6 -/

/-- C6 counterexample: a wild reading on joint A raises `encoder_error`, yet
the very next encoder message — a single healthy reading, long before a
fresh window of MAX_NUM_PREV_ANGLES healthy readings has accumulated —
leaves `encoder_error` false again: the flag is reset at the top of every
`arm_position_callback` and recomputed from that message alone. -/
theorem spec_c6_counterexample :
    (arm_position_callback testParams idEnv fullZeroController
        wildReading).1.encoderError = true ∧
      (arm_position_callback testParams idEnv
          (arm_position_callback testParams idEnv fullZeroController
            wildReading).1
          healthyReading).1.encoderError = false := by
  constructor <;>
    norm_num [arm_position_callback, check_joint_limits, check_dud_encoder,
      intakeAngles, windowPhaseFull, fishyCount, violatesAt, testParams,
      fullZeroController, testState, wildReading, healthyReading, idEnv,
      pushPrevAngles, substitutedAngles, set_joint_angles, List.finRange,
      List.range, List.range.loop, Function.update_apply, List.enum,
      List.countP, List.countP.go, abs_lt, lt_abs, Fin.ext_iff]

/-- C6 (amended): `encoder_error` does not latch across messages: the value
it takes after a message is entirely determined by that message and the rest
of the controller state — it is independent of the flag's previous value,
because the callback resets it to false on entry and recomputes it. -/
theorem spec_c6_theorem (p : ArmParams) (env : Env) (c : Controller)
    (msgAngles : Fin 6 → ℚ) (b₁ b₂ : Bool) :
    (arm_position_callback p env { c with encoderError := b₁ }
        msgAngles).1.encoderError =
      (arm_position_callback p env { c with encoderError := b₂ }
        msgAngles).1.encoderError := rfl

/-! ## Claim C9 -/

/-- C9: at any executor tick with the spline parameter in the window
`1 − D_SPLINE_T < t ≤ 1` (execution enabled, no encoder error pending), the
lookahead query `get_spline_pos(t + D_SPLINE_T)` is issued with an argument
strictly greater than 1, outside the spline's declared `[0,1]` domain; and
every spline query any tick issues is either that lookahead query or a
setpoint query with argument at most 1, because the `t > 1` termination
check precedes the setpoint query. -/
theorem spec_c9_theorem (p : ArmParams) (env : Env) (c : Controller) (t : ℚ)
    (hex : c.enableExecute = true) (herr : c.encoderError = false)
    (hD : 0 < p.dSplineT) (hlow : 1 - p.dSplineT < t) (hhigh : t ≤ 1) :
    (Event.splineQuery (t + p.dSplineT) ∈ (execute_spline_tick p env c t).events ∧
        1 < t + p.dSplineT) ∧
      ∀ (c0 : Controller) (t0 u : ℚ),
        Event.splineQuery u ∈ (execute_spline_tick p env c0 t0).events →
          u = t0 + p.dSplineT ∨ u ≤ 1 := by
  refine ⟨⟨?_, by linarith⟩, ?_⟩
  · simp only [execute_spline_tick]
    rw [if_pos hex, if_neg (by simp [herr])]
    split
    · simp
    · split <;> simp
  · intro c0 t0 u hmem
    simp only [execute_spline_tick] at hmem
    by_cases h1 : c0.enableExecute = true
    · rw [if_pos h1] at hmem
      by_cases h2 : c0.encoderError = true
      · rw [if_pos h2] at hmem
        simp only [List.mem_cons] at hmem
        rcases hmem with h | h
        · exact absurd h (by simp)
        · split at h
          · simp [List.mem_replicate] at h
          · simp at h
      · rw [if_neg h2] at hmem
        split at hmem
        · simp at hmem
          exact Or.inl hmem
        · rename_i hle
          have hle1 : nextSplineT p c0.state env.spline t0 ≤ 1 := le_of_not_lt hle
          split at hmem <;> simp at hmem <;> rcases hmem with h | h
          · exact Or.inl h
          · exact Or.inr (h ▸ hle1)
          · exact Or.inl h
          · exact Or.inr (h ▸ hle1)
    · rw [if_neg h1] at hmem
      simp at hmem

/-- C9 witness: at the concrete parameter value t = 3/4 with D_SPLINE_T =
1/2, the tick issues the out-of-domain lookahead query at 5/4. -/
theorem spec_c9_witness :
    executingController.enableExecute = true ∧
      executingController.encoderError = false ∧
      0 < testParams.dSplineT ∧
      1 - testParams.dSplineT < (3/4 : ℚ) ∧ (3/4 : ℚ) ≤ 1 ∧
      (Event.splineQuery (3/4 + testParams.dSplineT) ∈
          (execute_spline_tick testParams idEnv executingController (3/4)).events ∧
        1 < (3/4 : ℚ) + testParams.dSplineT) :=
  ⟨rfl, rfl, by norm_num [testParams], by norm_num [testParams], by norm_num,
    (spec_c9_theorem testParams idEnv executingController (3/4) rfl rfl
      (by norm_num [testParams]) (by norm_num [testParams]) (by norm_num)).1⟩

/-! ## Claim C1 -/

/-- C1 counterexample: a smooth spline that traverses a tall bump early in
the lookahead interval while moving little overall defeats the pacing rule.
At the tick from t = 0 with D_SPLINE_T = 1/2 and SPLINE_WAIT_TIME = 1 the
parameter increment is Δt = D_SPLINE_T·(SPLINE_WAIT_TIME/τ_max) = 1/1000,
the tick does issue its setpoint (the advanced parameter stays ≤ 1,
and in sim mode the model receives exactly the clamped setpoint), yet the
commanded change of joint A is |s(1/1000) − s(0)| = 256501/2500000 ≈ 0.103,
far above the claimed bound max_speed·0.75·SPLINE_WAIT_TIME/1000 = 3/1000. -/
theorem spec_c1_counterexample :
    executingController.enableExecute = true ∧
      executingController.encoderError = false ∧
      nextSplineT testParams executingController.state bumpEnv.spline 0 ≤ 1 ∧
      (execute_spline_tick testParams bumpEnv executingController
          0).ctrl.state.jointAngles 0 =
        tickSetpoint testParams executingController.state bumpEnv.spline 0 0 ∧
      |tickSetpoint testParams executingController.state bumpEnv.spline 0 0 -
          executingController.state.jointAngles 0| >
        executingController.state.jointMaxSpeed 0 * (3 / 4) *
          testParams.splineWaitTime / 1000 := by
  refine ⟨rfl, rfl, ?_, ?_, ?_⟩ <;>
  · simp only [execute_spline_tick, tickSetpoint, nextSplineT, maxTravelTime,
      jointTravelTime, clampToLimits, set_joint_angles, pacedJoints, bumpEnv,
      bumpSpline, idEnv, executingController, fullZeroController, testState,
      testParams, List.foldl]
    simp
    try norm_num [abs, max_def]

/-- C1 (amended): the per-tick bound
`|Δθᵢ| ≤ max_speedᵢ · 0.75 · SPLINE_WAIT_TIME / 1000` for the paced joints
A..E holds under the conditions the pacing rule implicitly relies on: each
joint's spline coordinate is an affine function of the parameter (so the
lookahead displacement is proportional to the parameter increment), the
model's current angles sit on the spline at the current parameter and within
the joint limits, the travel-time maximum is positive, and D_SPLINE_T,
SPLINE_WAIT_TIME and the paced max speeds are positive.  For a non-affine
spline the bound can fail (see the counterexample). -/
theorem spec_c1_theorem (p : ArmParams) (env : Env) (c : Controller) (t : ℚ)
    (a b : Fin 6 → ℚ)
    (hspline : ∀ u i, env.spline u i = a i * u + b i)
    (hinit : ∀ i, c.state.jointAngles i = env.spline t i)
    (hD : 0 < p.dSplineT) (hW : 0 < p.splineWaitTime)
    (hM : 0 < maxTravelTime c.state c.state.jointAngles
      (env.spline (t + p.dSplineT)))
    (hms : ∀ i ∈ pacedJoints, 0 < c.state.jointMaxSpeed i)
    (hlim : ∀ i : Fin 6, (c.state.jointLimits i).1 ≤ c.state.jointAngles i ∧
      c.state.jointAngles i ≤ (c.state.jointLimits i).2) :
    ∀ i ∈ pacedJoints,
      |tickSetpoint p c.state env.spline t i - c.state.jointAngles i| ≤
        c.state.jointMaxSpeed i * (3 / 4) * p.splineWaitTime / 1000 := by
  intro i hi
  have hv : 0 < c.state.jointMaxSpeed i * 3 / 4 / 1000 := by
    have := hms i hi; positivity
  have hnum : env.spline (t + p.dSplineT) i - c.state.jointAngles i
      = a i * p.dSplineT := by
    rw [hspline, hinit i, hspline]; ring
  have hjt : jointTravelTime c.state c.state.jointAngles
      (env.spline (t + p.dSplineT)) i ≤
      maxTravelTime c.state c.state.jointAngles (env.spline (t + p.dSplineT)) := by
    unfold maxTravelTime
    exact maxFold_mem_le _ pacedJoints (-1) i hi
  have hjt2 : jointTravelTime c.state c.state.jointAngles
      (env.spline (t + p.dSplineT)) i
      = |a i| * p.dSplineT / (c.state.jointMaxSpeed i * 3 / 4 / 1000) := by
    unfold jointTravelTime
    rw [hnum, abs_mul, abs_of_pos hD]
  have hdt : nextSplineT p c.state env.spline t =
      t + p.dSplineT * p.splineWaitTime /
        maxTravelTime c.state c.state.jointAngles (env.spline (t + p.dSplineT)) := by
    unfold nextSplineT
    rw [div_div_eq_mul_div]
  have hsp : env.spline (nextSplineT p c.state env.spline t) i -
      c.state.jointAngles i
      = a i * (p.dSplineT * p.splineWaitTime /
          maxTravelTime c.state c.state.jointAngles (env.spline (t + p.dSplineT))) := by
    rw [hdt, hspline, hinit i, hspline]; ring
  have hcl := clampToLimits_contract c.state
    (env.spline (nextSplineT p c.state env.spline t)) i
    (c.state.jointAngles i) (hlim i).1 (hlim i).2
  have habs : |env.spline (nextSplineT p c.state env.spline t) i -
      c.state.jointAngles i|
      = |a i| * (p.dSplineT * p.splineWaitTime /
          maxTravelTime c.state c.state.jointAngles (env.spline (t + p.dSplineT))) := by
    rw [hsp, abs_mul]
    congr 1
    exact abs_of_pos (by positivity)
  have h1 : |a i| * p.dSplineT ≤
      maxTravelTime c.state c.state.jointAngles (env.spline (t + p.dSplineT)) *
        (c.state.jointMaxSpeed i * 3 / 4 / 1000) := by
    rw [hjt2, div_le_iff₀ hv] at hjt
    linarith
  have hkey : |a i| * (p.dSplineT * p.splineWaitTime /
      maxTravelTime c.state c.state.jointAngles (env.spline (t + p.dSplineT)))
      ≤ (c.state.jointMaxSpeed i * 3 / 4 / 1000) * p.splineWaitTime := by
    have hMne : maxTravelTime c.state c.state.jointAngles
        (env.spline (t + p.dSplineT)) ≠ 0 := ne_of_gt hM
    calc |a i| * (p.dSplineT * p.splineWaitTime /
        maxTravelTime c.state c.state.jointAngles (env.spline (t + p.dSplineT)))
        = (|a i| * p.dSplineT) * (p.splineWaitTime /
            maxTravelTime c.state c.state.jointAngles (env.spline (t + p.dSplineT))) := by
          ring
      _ ≤ (maxTravelTime c.state c.state.jointAngles (env.spline (t + p.dSplineT)) *
            (c.state.jointMaxSpeed i * 3 / 4 / 1000)) *
            (p.splineWaitTime /
              maxTravelTime c.state c.state.jointAngles (env.spline (t + p.dSplineT))) := by
          apply mul_le_mul_of_nonneg_right h1
          positivity
      _ = (c.state.jointMaxSpeed i * 3 / 4 / 1000) * p.splineWaitTime := by
          field_simp
          ring
  calc |tickSetpoint p c.state env.spline t i - c.state.jointAngles i|
      ≤ |env.spline (nextSplineT p c.state env.spline t) i -
          c.state.jointAngles i| := hcl
    _ = |a i| * (p.dSplineT * p.splineWaitTime /
          maxTravelTime c.state c.state.jointAngles (env.spline (t + p.dSplineT))) := habs
    _ ≤ (c.state.jointMaxSpeed i * 3 / 4 / 1000) * p.splineWaitTime := hkey
    _ = c.state.jointMaxSpeed i * (3 / 4) * p.splineWaitTime / 1000 := by ring

/-- C1 witness: the bound at joint A for a concrete affine spline of unit
slope. -/
theorem spec_c1_witness :
    (0 : Fin 6) ∈ pacedJoints ∧
      |tickSetpoint testParams executingController.state affEnv.spline 0 0 -
          executingController.state.jointAngles 0| ≤
        executingController.state.jointMaxSpeed 0 * (3 / 4) *
          testParams.splineWaitTime / 1000 := by
  refine ⟨by simp [pacedJoints], ?_⟩
  refine spec_c1_theorem testParams affEnv executingController 0 affSlope
    affIntercept (fun u i => rfl) ?_ ?_ ?_ ?_ ?_ ?_ 0 (by simp [pacedJoints])
  · intro i
    simp [affEnv, idEnv, affSpline, affSlope, affIntercept, executingController,
      fullZeroController, testState]
  · norm_num [testParams]
  · norm_num [testParams]
  · simp only [maxTravelTime, jointTravelTime, pacedJoints, affEnv, affSpline,
      affSlope, affIntercept, idEnv, executingController, fullZeroController,
      testState, testParams, List.foldl]
    simp
    try norm_num [abs, max_def]
  · intro i hi
    norm_num [executingController, fullZeroController, testState]
  · intro i
    constructor <;> norm_num [executingController, fullZeroController, testState]
